import Mathlib

/-!
Verification of the submission-side protocol of the iou io_uring wrapper
(src/sqe.rs): the slot record, the prep_* constructors, the flag and
correlation-tag accessors, slot acquisition and batch submission.

The raw slot record (the kernel ABI structure consumed from the sys
module) is modelled as a Lean structure with one field per ABI field:
opcode (u8), generic flags (u8), target descriptor (i32), the
opcode-specific flags union (u32, written through fsync_flags), the
offset union (u64, written through off), the address (u64), the length
(u32), the buffer-index union (u16) and the correlation tag user_data
(u64). Machine-width casts performed by the code (the Rust casts when
writing a wider value into a narrower field) appear as explicit % 2^w.

Buffers and buffer lists are passed to the model as the address/length
pair the code derives from them: the code takes the address of the slice
itself and its element count, so the model takes those two numbers.
The external ring-handle calls (slot acquisition, flush) are modelled by
their return value, passed as a parameter.
-/

structure IoUringSqe where
  opcode : Nat
  flags : Nat
  fd : Int
  cmd_flags : Nat
  off : Nat
  addr : Nat
  len : Nat
  buf_index : Nat
  user_data : Nat
deriving Repr, DecidableEq

def IORING_OP_NOP : Nat := 0
def IORING_OP_READV : Nat := 1
def IORING_OP_WRITEV : Nat := 2
def IORING_OP_FSYNC : Nat := 3
def IORING_OP_READ_FIXED : Nat := 4
def IORING_OP_WRITE_FIXED : Nat := 5

namespace SubmissionFlags

def FIXED_FILE : Nat := 1
def IO_DRAIN : Nat := 2
def IO_LINK : Nat := 4

end SubmissionFlags

namespace FsyncFlags

def FSYNC_DATASYNC : Nat := 1

end FsyncFlags

namespace SubmissionQueue

/-- Slot acquisition: sys::io_uring_get_sqe returns a pointer which is
null (0) when the ring is full; next_sqe wraps a non-null pointer in a
SubmissionQueueEvent (modelled by the pointer itself) and maps null to
none. -/
def next_sqe (p : Nat) : Option Nat :=
  if p ≠ 0 then some p else none

/-- submit, as a function of the return value of the underlying
sys::io_uring_submit flush call: a non-negative return is Ok with the
value cast to usize, a negative return is an error built from the raw
code by io::Error::from_raw_os_error (modelled by the raw code itself). -/
def submit (ret : Int) : Except Int Nat :=
  if 0 ≤ ret then Except.ok ret.toNat else Except.error ret

/-- submit_and_wait, as a function of the wait_for argument (passed to
the underlying call, which is external) and the return value of that call;
the return handling is identical to submit. -/
def submit_and_wait (_wait_for : Nat) (ret : Int) : Except Int Nat :=
  if 0 ≤ ret then Except.ok ret.toNat else Except.error ret

end SubmissionQueue

namespace SubmissionQueueEvent

def user_data (s : IoUringSqe) : Nat :=
  s.user_data

def set_user_data (s : IoUringSqe) (d : Nat) : IoUringSqe :=
  { s with user_data := d % 2 ^ 64 }

/-- The generic-flags getter: SubmissionFlags::from_bits_unchecked on
the raw byte, which performs no masking. -/
def flags (s : IoUringSqe) : Nat :=
  s.flags

/-- The generic-flags setter: stores flags.bits() (a u8 value) into the
flags byte. -/
def set_flags (s : IoUringSqe) (f : Nat) : IoUringSqe :=
  { s with flags := f % 2 ^ 8 }

def prep_read_vectored (s : IoUringSqe) (fd : Int)
    (bufsAddr bufsLen : Nat) (offset : Nat) : IoUringSqe :=
  { s with
    opcode := IORING_OP_READV
    fd := fd
    off := offset % 2 ^ 64
    addr := bufsAddr % 2 ^ 64
    len := bufsLen % 2 ^ 32 }

def prep_read_fixed (s : IoUringSqe) (fd : Int)
    (bufAddr bufLen : Nat) (offset bufIndex : Nat) : IoUringSqe :=
  { s with
    opcode := IORING_OP_READ_FIXED
    fd := fd
    off := offset % 2 ^ 64
    addr := bufAddr % 2 ^ 64
    len := bufLen % 2 ^ 32
    buf_index := bufIndex % 2 ^ 16
    flags := s.flags ||| SubmissionFlags.FIXED_FILE }

def prep_write_vectored (s : IoUringSqe) (fd : Int)
    (bufsAddr bufsLen : Nat) (offset : Nat) : IoUringSqe :=
  { s with
    opcode := IORING_OP_WRITEV
    fd := fd
    off := offset % 2 ^ 64
    addr := bufsAddr % 2 ^ 64
    len := bufsLen % 2 ^ 32 }

def prep_write_fixed (s : IoUringSqe) (fd : Int)
    (bufAddr bufLen : Nat) (offset bufIndex : Nat) : IoUringSqe :=
  { s with
    opcode := IORING_OP_WRITE_FIXED
    fd := fd
    off := offset % 2 ^ 64
    addr := bufAddr % 2 ^ 64
    len := bufLen % 2 ^ 32
    buf_index := bufIndex % 2 ^ 16
    flags := s.flags ||| SubmissionFlags.FIXED_FILE }

def prep_fsync (s : IoUringSqe) (fd : Int) (fsyncFlags : Nat) : IoUringSqe :=
  { s with
    opcode := IORING_OP_FSYNC
    fd := fd
    off := 0
    addr := 0
    len := 0
    cmd_flags := fsyncFlags % 2 ^ 32 }

def prep_nop (s : IoUringSqe) : IoUringSqe :=
  { s with
    opcode := IORING_OP_NOP
    fd := 0
    off := 0
    addr := 0
    len := 0 }

/-- clear writes mem::zeroed() over the whole record. -/
def clear (_s : IoUringSqe) : IoUringSqe :=
  ⟨0, 0, 0, 0, 0, 0, 0, 0, 0⟩

end SubmissionQueueEvent

/-- A fully non-zero slot, used as a concrete prior state. -/
def dirtySlot : IoUringSqe :=
  ⟨9, 9, 9, 9, 9, 9, 9, 9, 9⟩

open SubmissionQueue SubmissionQueueEvent

/-- Claim C1: submit returns Ok with the submitted-slot count when the
underlying flush call returns a non-negative value, and an error built
injectively from the raw code when it returns a negative value; the
count is never negative; submit_and_wait has the identical contract. -/
theorem C1_submit_error_contract (w : Nat) (ret : Int) :
    (0 ≤ ret →
      submit ret = Except.ok ret.toNat ∧
      submit_and_wait w ret = Except.ok ret.toNat) ∧
    (ret < 0 →
      submit ret = Except.error ret ∧
      submit_and_wait w ret = Except.error ret) ∧
    (∀ r₁ r₂ : Int, r₁ < 0 → r₂ < 0 →
      submit r₁ = submit r₂ → r₁ = r₂) ∧
    (∀ n : Nat, submit ret = Except.ok n → 0 ≤ (n : Int)) := by
  refine ⟨fun h => ?_, fun h => ?_, fun r₁ r₂ h₁ h₂ heq => ?_, fun n _ => ?_⟩
  · simp [submit, submit_and_wait, h]
  · simp [submit, submit_and_wait, Int.not_le.mpr h]
  · simpa [submit, Int.not_le.mpr h₁, Int.not_le.mpr h₂] using heq
  · exact Int.natCast_nonneg n

/-- Claim C1 witness: the contract evaluated at concrete flush returns
5 (success) and -16 (failure with code -16). -/
theorem C1_submit_error_contract_witness :
    submit 5 = Except.ok 5 ∧
    submit (-16) = Except.error (-16) ∧
    submit_and_wait 2 (-16) = Except.error (-16) :=
  ⟨((C1_submit_error_contract 0 5).1 (by decide)).1,
   ((C1_submit_error_contract 2 (-16)).2.1 (by decide)).1,
   ((C1_submit_error_contract 2 (-16)).2.1 (by decide)).2⟩

/-- Claim C2 counterexample: on a slot whose fields are all 9, prep_nop
leaves the generic flags, opcode-specific flags, buffer index and
correlation tag at 9, so it does not zero all fields other than the
opcode. -/
theorem C2_prep_nop_counterexample :
    (prep_nop dirtySlot).flags = 9 ∧
    (prep_nop dirtySlot).cmd_flags = 9 ∧
    (prep_nop dirtySlot).buf_index = 9 ∧
    (prep_nop dirtySlot).user_data = 9 ∧
    ¬ (prep_nop dirtySlot).flags = 0 := by
  decide

/-- Claim C2 (amended): prep_nop sets the opcode to no-op (0) and
zeroes the descriptor, offset, address and length fields; the generic
flags, the opcode-specific flags union, the buffer index and the
correlation tag retain their prior values. -/
theorem C2_prep_nop_amended (s : IoUringSqe) :
    (prep_nop s).opcode = 0 ∧
    (prep_nop s).fd = 0 ∧
    (prep_nop s).off = 0 ∧
    (prep_nop s).addr = 0 ∧
    (prep_nop s).len = 0 ∧
    (prep_nop s).flags = s.flags ∧
    (prep_nop s).cmd_flags = s.cmd_flags ∧
    (prep_nop s).buf_index = s.buf_index ∧
    (prep_nop s).user_data = s.user_data := by
  simp [prep_nop, IORING_OP_NOP]

/-- Claim C3: each prep constructor writes only the fields of its own
opcode and leaves every other field as the slot previously held it:
prep_read_vectored and prep_write_vectored leave the correlation tag,
the generic flags byte, the buffer-index field and the opcode-specific
flags union unchanged; prep_read_fixed and prep_write_fixed leave the
correlation tag and the opcode-specific flags union unchanged and
change the generic flags byte only by OR-ing in the fixed-file bit,
preserving every other bit; prep_fsync leaves the generic flags, the
buffer index and the correlation tag unchanged; prep_nop leaves the
generic flags, the opcode-specific flags, the buffer index and the
correlation tag unchanged. -/
theorem C3_prep_frame_conditions (s : IoUringSqe) (fd : Int)
    (a n o bi : Nat) :
    ((prep_read_vectored s fd a n o).user_data = s.user_data ∧
     (prep_read_vectored s fd a n o).flags = s.flags ∧
     (prep_read_vectored s fd a n o).buf_index = s.buf_index ∧
     (prep_read_vectored s fd a n o).cmd_flags = s.cmd_flags) ∧
    ((prep_write_vectored s fd a n o).user_data = s.user_data ∧
     (prep_write_vectored s fd a n o).flags = s.flags ∧
     (prep_write_vectored s fd a n o).buf_index = s.buf_index ∧
     (prep_write_vectored s fd a n o).cmd_flags = s.cmd_flags) ∧
    ((prep_read_fixed s fd a n o bi).user_data = s.user_data ∧
     (prep_read_fixed s fd a n o bi).cmd_flags = s.cmd_flags ∧
     (prep_read_fixed s fd a n o bi).flags
        = s.flags ||| SubmissionFlags.FIXED_FILE ∧
     (∀ i : Nat, i ≠ 0 →
       ((prep_read_fixed s fd a n o bi).flags.testBit i
          = s.flags.testBit i))) ∧
    ((prep_write_fixed s fd a n o bi).user_data = s.user_data ∧
     (prep_write_fixed s fd a n o bi).cmd_flags = s.cmd_flags ∧
     (prep_write_fixed s fd a n o bi).flags
        = s.flags ||| SubmissionFlags.FIXED_FILE ∧
     (∀ i : Nat, i ≠ 0 →
       ((prep_write_fixed s fd a n o bi).flags.testBit i
          = s.flags.testBit i))) ∧
    ((prep_fsync s fd a).flags = s.flags ∧
     (prep_fsync s fd a).buf_index = s.buf_index ∧
     (prep_fsync s fd a).user_data = s.user_data) ∧
    ((prep_nop s).flags = s.flags ∧
     (prep_nop s).cmd_flags = s.cmd_flags ∧
     (prep_nop s).buf_index = s.buf_index ∧
     (prep_nop s).user_data = s.user_data) := by
  refine ⟨⟨rfl, rfl, rfl, rfl⟩, ⟨rfl, rfl, rfl, rfl⟩,
    ⟨rfl, rfl, rfl, fun i hi => ?_⟩,
    ⟨rfl, rfl, rfl, fun i hi => ?_⟩,
    ⟨rfl, rfl, rfl⟩, ⟨rfl, rfl, rfl, rfl⟩⟩ <;>
  · show (s.flags ||| SubmissionFlags.FIXED_FILE).testBit i = s.flags.testBit i
    have h1 : Nat.testBit 1 i = false := by
      have : (2 ^ 0).testBit i = false := Nat.testBit_two_pow_of_ne hi.symm
      simpa using this
    simp [SubmissionFlags.FIXED_FILE, Nat.testBit_or, h1]

/-- Claim C3 witness: the frame conditions evaluated on the all-nines
slot at descriptor 3, address 4096, length 2, offset 512, index 1. -/
theorem C3_prep_frame_conditions_witness :
    (prep_read_fixed dirtySlot 3 4096 2 512 1).user_data
      = dirtySlot.user_data ∧
    (prep_read_fixed dirtySlot 3 4096 2 512 1).flags.testBit 3
      = dirtySlot.flags.testBit 3 :=
  ⟨(C3_prep_frame_conditions dirtySlot 3 4096 2 512 1).2.2.1.1,
   (C3_prep_frame_conditions dirtySlot 3 4096 2 512 1).2.2.1.2.2.2
     3 (by decide)⟩

/-- Claim C4: for any 8-bit pattern, setting the generic flags and
reading them back yields the identical pattern, including bits the
core does not define (bits 3 to 7): the getter performs no masking. -/
theorem C4_flags_round_trip (s : IoUringSqe) (f : Nat) (h : f < 2 ^ 8) :
    SubmissionQueueEvent.flags (set_flags s f) = f := by
  simp only [SubmissionQueueEvent.flags, set_flags]
  exact Nat.mod_eq_of_lt h

/-- Claim C4 witness: pattern 171 (bits 0, 1, 3, 5 and 7, including
undefined bits) round-trips on the all-nines slot. -/
theorem C4_flags_round_trip_witness :
    SubmissionQueueEvent.flags (set_flags dirtySlot 171) = 171 :=
  C4_flags_round_trip dirtySlot 171 (by decide)

/-- Claim C5: prep_read_fixed and prep_write_fixed set the fixed-file
bit (bit 0) of the generic flags in addition to their opcode-specific
fields (opcode 4 resp. 5, buffer address and length, offset, buffer
index), while prep_read_vectored and prep_write_vectored leave the
generic flags byte untouched. -/
theorem C5_fixed_file_bit (s : IoUringSqe) (fd : Int) (a n o bi : Nat) :
    ((prep_read_fixed s fd a n o bi).flags.testBit 0 = true ∧
     (prep_read_fixed s fd a n o bi).opcode = 4 ∧
     (prep_read_fixed s fd a n o bi).addr = a % 2 ^ 64 ∧
     (prep_read_fixed s fd a n o bi).len = n % 2 ^ 32 ∧
     (prep_read_fixed s fd a n o bi).off = o % 2 ^ 64 ∧
     (prep_read_fixed s fd a n o bi).buf_index = bi % 2 ^ 16) ∧
    ((prep_write_fixed s fd a n o bi).flags.testBit 0 = true ∧
     (prep_write_fixed s fd a n o bi).opcode = 5 ∧
     (prep_write_fixed s fd a n o bi).addr = a % 2 ^ 64 ∧
     (prep_write_fixed s fd a n o bi).len = n % 2 ^ 32 ∧
     (prep_write_fixed s fd a n o bi).off = o % 2 ^ 64 ∧
     (prep_write_fixed s fd a n o bi).buf_index = bi % 2 ^ 16) ∧
    (prep_read_vectored s fd a n o).flags = s.flags ∧
    (prep_write_vectored s fd a n o).flags = s.flags := by
  refine ⟨⟨?_, rfl, rfl, rfl, rfl, rfl⟩, ⟨?_, rfl, rfl, rfl, rfl, rfl⟩,
    rfl, rfl⟩ <;>
  simp [prep_read_fixed, prep_write_fixed, SubmissionFlags.FIXED_FILE,
    Nat.testBit_or]

/-- Claim C6: after prep_fsync with the data-only sync flag and setting
the correlation tag to 42, the raw record holds opcode 3, the given
descriptor, offset 0, address 0, length 0, bit 0 of the sync-specific
flags set, and correlation tag 42 (for every prior slot state and every
descriptor). -/
theorem C6_fsync_scenario (s : IoUringSqe) (fd : Int) :
    (set_user_data (prep_fsync s fd FsyncFlags.FSYNC_DATASYNC) 42).opcode
      = 3 ∧
    (set_user_data (prep_fsync s fd FsyncFlags.FSYNC_DATASYNC) 42).fd
      = fd ∧
    (set_user_data (prep_fsync s fd FsyncFlags.FSYNC_DATASYNC) 42).off
      = 0 ∧
    (set_user_data (prep_fsync s fd FsyncFlags.FSYNC_DATASYNC) 42).addr
      = 0 ∧
    (set_user_data (prep_fsync s fd FsyncFlags.FSYNC_DATASYNC) 42).len
      = 0 ∧
    (set_user_data
        (prep_fsync s fd FsyncFlags.FSYNC_DATASYNC) 42).cmd_flags.testBit 0
      = true ∧
    (set_user_data (prep_fsync s fd FsyncFlags.FSYNC_DATASYNC) 42).user_data
      = 42 := by
  refine ⟨rfl, rfl, rfl, rfl, rfl, ?_, rfl⟩
  simp [set_user_data, prep_fsync, FsyncFlags.FSYNC_DATASYNC]

/-- Claim C7: clear resets the slot to the all-zero record, regardless
of prior contents: every field reads back as zero. -/
theorem C7_clear_zeroes (s : IoUringSqe) :
    (clear s).opcode = 0 ∧
    (clear s).flags = 0 ∧
    (clear s).fd = 0 ∧
    (clear s).cmd_flags = 0 ∧
    (clear s).off = 0 ∧
    (clear s).addr = 0 ∧
    (clear s).len = 0 ∧
    (clear s).buf_index = 0 ∧
    (clear s).user_data = 0 :=
  ⟨rfl, rfl, rfl, rfl, rfl, rfl, rfl, rfl, rfl⟩

/-- Claim C8: prep_read_vectored sets opcode 1, the given descriptor,
the given byte offset, the address of the buffer list itself, and the
number of byte ranges in the list as the length; prep_write_vectored
mirrors this with opcode 2. -/
theorem C8_vectored_fields (s : IoUringSqe) (fd : Int) (a n o : Nat)
    (ha : a < 2 ^ 64) (hn : n < 2 ^ 32) (ho : o < 2 ^ 64) :
    ((prep_read_vectored s fd a n o).opcode = 1 ∧
     (prep_read_vectored s fd a n o).fd = fd ∧
     (prep_read_vectored s fd a n o).off = o ∧
     (prep_read_vectored s fd a n o).addr = a ∧
     (prep_read_vectored s fd a n o).len = n) ∧
    ((prep_write_vectored s fd a n o).opcode = 2 ∧
     (prep_write_vectored s fd a n o).fd = fd ∧
     (prep_write_vectored s fd a n o).off = o ∧
     (prep_write_vectored s fd a n o).addr = a ∧
     (prep_write_vectored s fd a n o).len = n) :=
  ⟨⟨rfl, rfl, Nat.mod_eq_of_lt ho, Nat.mod_eq_of_lt ha,
    Nat.mod_eq_of_lt hn⟩,
   ⟨rfl, rfl, Nat.mod_eq_of_lt ho, Nat.mod_eq_of_lt ha,
    Nat.mod_eq_of_lt hn⟩⟩

/-- Claim C8 witness: the field population evaluated on the all-nines
slot at descriptor 3, list address 4096, list count 2, offset 512. -/
theorem C8_vectored_fields_witness :
    (prep_read_vectored dirtySlot 3 4096 2 512).opcode = 1 ∧
    (prep_read_vectored dirtySlot 3 4096 2 512).addr = 4096 ∧
    (prep_read_vectored dirtySlot 3 4096 2 512).len = 2 ∧
    (prep_write_vectored dirtySlot 3 4096 2 512).opcode = 2 :=
  ⟨(C8_vectored_fields dirtySlot 3 4096 2 512 (by decide) (by decide)
      (by decide)).1.1,
   (C8_vectored_fields dirtySlot 3 4096 2 512 (by decide) (by decide)
      (by decide)).1.2.2.2.1,
   (C8_vectored_fields dirtySlot 3 4096 2 512 (by decide) (by decide)
      (by decide)).1.2.2.2.2,
   (C8_vectored_fields dirtySlot 3 4096 2 512 (by decide) (by decide)
      (by decide)).2.1⟩

/-- Claim C9: when the underlying slot-acquisition call returns the
null pointer (the ring is full), next_sqe returns none; when it returns
a slot pointer, next_sqe returns some of exactly that slot. -/
theorem C9_next_sqe_full_ring (p : Nat) :
    next_sqe 0 = none ∧
    (p ≠ 0 → next_sqe p = some p) := by
  refine ⟨rfl, fun h => ?_⟩
  simp [next_sqe, h]

/-- Claim C9 witness: acquisition at the null pointer and at pointer 7. -/
theorem C9_next_sqe_full_ring_witness :
    next_sqe 0 = none ∧ next_sqe 7 = some 7 :=
  ⟨(C9_next_sqe_full_ring 7).1, (C9_next_sqe_full_ring 7).2 (by decide)⟩

/-- Claim C10: set_flags overwrites the entire generic flags byte with
exactly the given pattern rather than OR-ing it in; in particular,
calling it after prep_read_fixed or prep_write_fixed with a pattern
lacking the fixed-file bit clears that bit. -/
theorem C10_set_flags_overwrites (s : IoUringSqe) (fd : Int)
    (a n o bi f : Nat) (hf : f < 2 ^ 8) :
    (set_flags s f).flags = f ∧
    (f.testBit 0 = false →
      ((set_flags (prep_read_fixed s fd a n o bi) f).flags.testBit 0
          = false ∧
       (set_flags (prep_write_fixed s fd a n o bi) f).flags.testBit 0
          = false)) := by
  have hw : ∀ t : IoUringSqe, (set_flags t f).flags = f := fun t =>
    Nat.mod_eq_of_lt hf
  refine ⟨hw s, fun h0 => ⟨?_, ?_⟩⟩ <;> rw [hw] <;> exact h0

/-- Claim C10 witness: pattern 6 (drain and link, no fixed-file bit)
overwrites the flags byte after prep_read_fixed set the fixed-file bit. -/
theorem C10_set_flags_overwrites_witness :
    (set_flags dirtySlot 6).flags = 6 ∧
    (set_flags (prep_read_fixed dirtySlot 3 4096 2 512 1) 6).flags.testBit 0
      = false :=
  ⟨(C10_set_flags_overwrites dirtySlot 3 4096 2 512 1 6 (by decide)).1,
   ((C10_set_flags_overwrites dirtySlot 3 4096 2 512 1 6 (by decide)).2
      (by decide)).1⟩
